import Mathlib

/-!
# gotest: the Deployment + HorizontalPodAutoscaler provisioning driver

A shallow embedding of `main.go`: the two object literals built by
`createDeployment` and `createHPA`, the two create calls issued through the
clientset, and the control flow of `main` from the point where `flag.Parse`
has returned.

The cluster client is an external collaborator.  It is modelled as a stub
with a state of an arbitrary type `σ`; every request the program sends through
it is appended to a trace kept in the `World`, together with whether the
client accepted it.  `context.Background()` and the empty
`metav1.CreateOptions{}` are the same constants on both calls and are not
recorded.
-/

set_option linter.dupNamespace false

namespace Gotest

/-! ## Data model (the fields of the Kubernetes API types the program sets) -/

/-- A Go `error` value, identified by the text it prints as. -/
structure Error where
  text : String
  deriving DecidableEq, Repr

/-- The type `metav1.ObjectMeta`: name, namespace and labels. -/
structure ObjectMeta where
  Name : String := ""
  Namespace : String := ""
  Labels : List (String × String) := []
  deriving DecidableEq, Repr

/-- The type `metav1.LabelSelector`. -/
structure LabelSelector where
  MatchLabels : List (String × String) := []
  deriving DecidableEq, Repr

/-- The type `resource.Quantity`, kept as the text it was parsed from. -/
structure Quantity where
  text : String
  deriving DecidableEq, Repr

/-- The function `resource.MustParse`; both literals in the program
("100m", "128Mi") are well-formed quantities. -/
def MustParse (s : String) : Quantity := ⟨s⟩

/-- The constant `corev1.ResourceCPU`. -/
def ResourceCPU : String := "cpu"

/-- The constant `corev1.ResourceMemory`. -/
def ResourceMemory : String := "memory"

/-- The type `corev1.ContainerPort`. -/
structure ContainerPort where
  ContainerPort : Int
  deriving DecidableEq, Repr

/-- The type `corev1.ResourceRequirements`. -/
structure ResourceRequirements where
  Requests : List (String × Quantity) := []
  deriving DecidableEq, Repr

/-- The type `corev1.Container`. -/
structure Container where
  Name : String
  Image : String
  Ports : List ContainerPort := []
  Resources : ResourceRequirements := {}
  deriving DecidableEq, Repr

/-- The type `corev1.PodSpec`. -/
structure PodSpec where
  Containers : List Container := []
  deriving DecidableEq, Repr

/-- The type `corev1.PodTemplateSpec`. -/
structure PodTemplateSpec where
  ObjectMeta : ObjectMeta := {}
  Spec : PodSpec := {}
  deriving DecidableEq, Repr

/-- The type `appsv1.DeploymentSpec`; the two pointer fields are options. -/
structure DeploymentSpec where
  Replicas : Option Int := none
  Selector : Option LabelSelector := none
  Template : PodTemplateSpec := {}
  deriving DecidableEq, Repr

/-- The type `appsv1.Deployment`. -/
structure Deployment where
  ObjectMeta : ObjectMeta := {}
  Spec : DeploymentSpec := {}
  deriving DecidableEq, Repr

/-- The type `autoscalingv2beta1.CrossVersionObjectReference`. -/
structure CrossVersionObjectReference where
  APIVersion : String := ""
  Kind : String := ""
  Name : String := ""
  deriving DecidableEq, Repr

/-- The type `autoscalingv2beta1.ResourceMetricSource`. -/
structure ResourceMetricSource where
  Name : String
  TargetAverageUtilization : Option Int := none
  deriving DecidableEq, Repr

/-- The constant `autoscalingv2beta1.ResourceMetricSourceType`. -/
def ResourceMetricSourceType : String := "Resource"

/-- The type `autoscalingv2beta1.MetricSpec`; its Go field `Type` is a reserved
word here and is named `SourceType`. -/
structure MetricSpec where
  SourceType : String
  Resource : Option ResourceMetricSource := none
  deriving DecidableEq, Repr

/-- The type `autoscalingv2beta1.HorizontalPodAutoscalerSpec`. -/
structure HorizontalPodAutoscalerSpec where
  ScaleTargetRef : CrossVersionObjectReference := {}
  MinReplicas : Option Int := none
  MaxReplicas : Int := 0
  Metrics : List MetricSpec := []
  deriving DecidableEq, Repr

/-- The type `autoscalingv2beta1.HorizontalPodAutoscaler`. -/
structure HorizontalPodAutoscaler where
  ObjectMeta : ObjectMeta := {}
  Spec : HorizontalPodAutoscalerSpec := {}
  deriving DecidableEq, Repr

/-- The function `int32Ptr`: a pointer to the given value. -/
def int32Ptr (i : Int) : Option Int := some i

/-! ## The cluster client and the recorded requests -/

/-- The operations a typed resource client offers. -/
inductive Verb where
  | create
  | get
  | update
  | delete
  deriving DecidableEq, Repr

/-- The object a request carries. -/
inductive Body where
  | deployment (d : Deployment)
  | hpa (h : HorizontalPodAutoscaler)
  deriving DecidableEq, Repr

/-- One request sent through the clientset: the operation, the group/version
of the typed client it was sent through, the resource, the namespace the
resource client is scoped to, and the object. -/
structure Request where
  verb : Verb
  apiVersion : String
  resource : String
  Namespace : String
  body : Body
  deriving DecidableEq, Repr

/-- A recorded request with the client's answer: `accepted` is true when the
call returned a nil error. -/
structure Call where
  req : Request
  accepted : Bool
  deriving DecidableEq, Repr

/-- The type `rest.Config` that `BuildConfigFromFlags` returns. -/
structure Config where
  Host : String
  deriving DecidableEq, Repr

/-- The part of `*kubernetes.Clientset` the program uses, as a stub over a
cluster state `σ`: `deploymentsCreate` stands for
`AppsV1().Deployments(ns).Create` and `hpaCreate` for
`AutoscalingV2beta1().HorizontalPodAutoscalers(ns).Create`. -/
structure Clientset (σ : Type) where
  deploymentsCreate : σ → String → Deployment → Except Error Deployment × σ
  hpaCreate : σ → String → HorizontalPodAutoscaler →
    Except Error HorizontalPodAutoscaler × σ

/-- Severity of a klog line. -/
inductive Severity where
  | info
  | fatal
  deriving DecidableEq, Repr

/-- One line written through klog. -/
structure LogLine where
  severity : Severity
  msg : String
  deriving DecidableEq, Repr

/-- Everything outside the process the run can change: the cluster behind the
client, the trace of requests sent, and the log. -/
structure World (σ : Type) where
  cluster : σ
  calls : List Call := []
  log : List LogLine := []

/-- The result of a run of `main`: the exit status and the final world. -/
structure Run (σ : Type) where
  exitCode : Nat
  world : World σ

/-- The function `klog.Info`. -/
def klogInfo {σ : Type} (msg : String) (w : World σ) : World σ :=
  { w with log := w.log ++ [⟨Severity.info, msg⟩] }

/-- The function `klog.Fatalf`: writes the line and ends the process with
status 255. -/
def klogFatalf {σ : Type} (msg : String) (w : World σ) : Run σ :=
  ⟨255, { w with log := w.log ++ [⟨Severity.fatal, msg⟩] }⟩

/-- True when a call result carries a nil error. -/
def isOk {α : Type} : Except Error α → Bool
  | Except.ok _ => true
  | Except.error _ => false

/-- The call `clientset.AppsV1().Deployments(namespace).Create(ctx, d, opts)`:
runs the stub and records the request. -/
def appsV1DeploymentsCreate {σ : Type} (clientset : Clientset σ) (ns : String)
    (d : Deployment) (w : World σ) : Except Error Deployment × World σ :=
  let r := clientset.deploymentsCreate w.cluster ns d
  (r.1, { w with
    cluster := r.2
    calls := w.calls ++
      [⟨⟨Verb.create, "apps/v1", "deployments", ns, Body.deployment d⟩, isOk r.1⟩] })

/-- The call
`clientset.AutoscalingV2beta1().HorizontalPodAutoscalers(namespace).Create(ctx, hpa, opts)`:
runs the stub and records the request. -/
def autoscalingV2beta1HPACreate {σ : Type} (clientset : Clientset σ) (ns : String)
    (h : HorizontalPodAutoscaler) (w : World σ) :
    Except Error HorizontalPodAutoscaler × World σ :=
  let r := clientset.hpaCreate w.cluster ns h
  (r.1, { w with
    cluster := r.2
    calls := w.calls ++
      [⟨⟨Verb.create, "autoscaling/v2beta1", "horizontalpodautoscalers", ns, Body.hpa h⟩,
        isOk r.1⟩] })

/-! ## The program -/

/-- The object literal `deployment` of `createDeployment` (main.go 55-94). -/
def deploymentObject (ns : String) : Deployment :=
  { ObjectMeta := { Name := "nginx-deployment", Namespace := ns }
    Spec :=
      { Replicas := int32Ptr 2
        Selector := some { MatchLabels := [("app", "nginx")] }
        Template :=
          { ObjectMeta := { Labels := [("app", "nginx")] }
            Spec :=
              { Containers :=
                  [{ Name := "nginx"
                     Image := "nginx:1.20"
                     Ports := [{ ContainerPort := 80 }]
                     Resources :=
                       { Requests :=
                           [(ResourceCPU, MustParse "100m"),
                            (ResourceMemory, MustParse "128Mi")] } }] } } } }

/-- The function `createDeployment` (main.go 54-103): the returned option is
the Go `error` result, `none` for nil. -/
def createDeployment {σ : Type} (clientset : Clientset σ) (ns : String)
    (w : World σ) : Option Error × World σ :=
  let deployment := deploymentObject ns
  match appsV1DeploymentsCreate clientset ns deployment w with
  | (Except.error err, w1) => (some err, w1)
  | (Except.ok _, w1) => (none, klogInfo "Created Deployment: nginx-deployment" w1)

/-- The object literal `hpa` of `createHPA` (main.go 106-129). -/
def hpaObject (ns : String) : HorizontalPodAutoscaler :=
  { ObjectMeta := { Name := "nginx-hpa", Namespace := ns }
    Spec :=
      { ScaleTargetRef :=
          { APIVersion := "apps/v1", Kind := "Deployment", Name := "nginx-deployment" }
        MinReplicas := int32Ptr 2
        MaxReplicas := 10
        Metrics :=
          [{ SourceType := ResourceMetricSourceType
             Resource := some { Name := ResourceCPU, TargetAverageUtilization := int32Ptr 70 } }] } }

/-- The function `createHPA` (main.go 105-138). -/
def createHPA {σ : Type} (clientset : Clientset σ) (ns : String)
    (w : World σ) : Option Error × World σ :=
  let hpa := hpaObject ns
  match autoscalingV2beta1HPACreate clientset ns hpa w with
  | (Except.error err, w1) => (some err, w1)
  | (Except.ok _, w1) =>
    (none, klogInfo "Created HPA using autoscaling/v2beta1 (deprecated API): nginx-hpa" w1)

/-- What a run of `main` receives from outside: the home directory, the value
of the `-kubeconfig` flag when one was given, `filepath.Join`, the two
client-go constructors, and the cluster the client talks to. -/
structure Env (σ : Type) where
  home : String
  kubeconfigFlag : Option String
  filepathJoin : List String → String
  buildConfigFromFlags : String → String → Except Error Config
  newForConfig : Config → Except Error (Clientset σ)
  cluster : σ

/-- The value of `*kubeconfig` after `flag.Parse()` (main.go 20-26). -/
def kubeconfigPath {σ : Type} (env : Env σ) : String :=
  let dflt := if env.home ≠ "" then env.filepathJoin [env.home, ".kube", "config"] else ""
  env.kubeconfigFlag.getD dflt

/-- The function `main` from line 28 on (main.go 28-52). -/
def main {σ : Type} (env : Env σ) : Run σ :=
  let w0 : World σ := { cluster := env.cluster }
  match env.buildConfigFromFlags "" (kubeconfigPath env) with
  | Except.error err => klogFatalf ("Error building kubeconfig: " ++ err.text) w0
  | Except.ok config =>
    match env.newForConfig config with
    | Except.error err => klogFatalf ("Error creating Kubernetes client: " ++ err.text) w0
    | Except.ok clientset =>
      let ns := "default"
      let w1 := klogInfo "=== Creating Deployment ===" w0
      match createDeployment clientset ns w1 with
      | (some err, w2) => klogFatalf ("Failed to create deployment: " ++ err.text) w2
      | (none, w2) =>
        let w3 := klogInfo "=== Creating HPA using deprecated autoscaling/v2beta1 API ===" w2
        match createHPA clientset ns w3 with
        | (some err, w4) => klogFatalf ("Failed to create HPA: " ++ err.text) w4
        | (none, w4) => ⟨0, klogInfo "Demo completed successfully!" w4⟩

/-! ## Observations on a run -/

/-- A recorded call is a create of the workload resource. -/
def isWorkloadCreate (c : Call) : Bool :=
  decide (c.req.verb = Verb.create) && decide (c.req.resource = "deployments")

/-- A recorded call is a create of the autoscaling-policy resource. -/
def isPolicyCreate (c : Call) : Bool :=
  decide (c.req.verb = Verb.create) && decide (c.req.resource = "horizontalpodautoscalers")

/-- The identity of an object on the cluster: resource, namespace and name. -/
structure ObjectKey where
  resource : String
  Namespace : String
  Name : String
  deriving DecidableEq, Repr

/-- The name of the object a request carries. -/
def Body.objectName : Body → String
  | Body.deployment d => d.ObjectMeta.Name
  | Body.hpa h => h.ObjectMeta.Name

/-- The identity of the object a request is about. -/
def Request.key (r : Request) : ObjectKey :=
  ⟨r.resource, r.Namespace, r.body.objectName⟩

/-- The remote state as the set of created objects: an accepted create adds
its object, an accepted delete removes it, and nothing else changes the set. -/
def applyCall (remote : List ObjectKey) (c : Call) : List ObjectKey :=
  if c.accepted then
    match c.req.verb with
    | Verb.create => c.req.key :: remote
    | Verb.delete => remote.filter (fun k => decide (k ≠ c.req.key))
    | _ => remote
  else remote

/-- The set of created objects after a trace of calls. -/
def remoteAfter (remote : List ObjectKey) (calls : List Call) : List ObjectKey :=
  calls.foldl applyCall remote

/-- All four fallible steps of a run return no error: the configuration is
built, the client is created, the workload create and then the policy create
are accepted. -/
def allStepsSucceed {σ : Type} (env : Env σ) : Prop :=
  ∃ config clientset d s1 h s2,
    env.buildConfigFromFlags "" (kubeconfigPath env) = Except.ok config ∧
    env.newForConfig config = Except.ok clientset ∧
    clientset.deploymentsCreate env.cluster "default" (deploymentObject "default")
      = (Except.ok d, s1) ∧
    clientset.hpaCreate s1 "default" (hpaObject "default") = (Except.ok h, s2)

/-! ## A stub cluster for concrete runs -/

/-- A stub cluster: the objects it holds and whether it serves the
`autoscaling/v2beta1` API. -/
structure FakeCluster where
  objects : List ObjectKey
  servesV2beta1 : Bool
  deriving DecidableEq, Repr

/-- A stub client: a create is rejected with a conflict when an object of that
name exists in the namespace, the policy create is rejected when the cluster
does not serve `autoscaling/v2beta1`, and is stored otherwise. -/
def fakeClientset : Clientset FakeCluster where
  deploymentsCreate := fun s ns d =>
    let k : ObjectKey := ⟨"deployments", ns, d.ObjectMeta.Name⟩
    if k ∈ s.objects then (Except.error ⟨"deployments.apps already exists"⟩, s)
    else (Except.ok d, { s with objects := k :: s.objects })
  hpaCreate := fun s ns h =>
    let k : ObjectKey := ⟨"horizontalpodautoscalers", ns, h.ObjectMeta.Name⟩
    if s.servesV2beta1 = false then
      (Except.error ⟨"the server could not find the requested resource"⟩, s)
    else if k ∈ s.objects then
      (Except.error ⟨"horizontalpodautoscalers.autoscaling already exists"⟩, s)
    else (Except.ok h, { s with objects := k :: s.objects })

/-- An environment around the stub client: the credentials file is found
unless the path is empty. -/
def fakeEnv (home : String) (cluster : FakeCluster) : Env FakeCluster where
  home := home
  kubeconfigFlag := none
  filepathJoin := fun parts => "/".intercalate parts
  buildConfigFromFlags := fun _ path =>
    if path = "" then Except.error ⟨"invalid configuration: no configuration has been provided"⟩
    else Except.ok ⟨"https://127.0.0.1:6443"⟩
  newForConfig := fun _ => Except.ok fakeClientset
  cluster := cluster

/-- An empty cluster that serves `autoscaling/v2beta1`. -/
def freshCluster : FakeCluster := ⟨[], true⟩

/-- A cluster on which the workload already exists. -/
def usedCluster : FakeCluster := ⟨[⟨"deployments", "default", "nginx-deployment"⟩], true⟩

/-- An empty cluster from which `autoscaling/v2beta1` has been removed. -/
def newCluster : FakeCluster := ⟨[], false⟩

/-! ## Lemmas: what each function does on each answer of the client -/

theorem createDeployment_of_error {σ : Type} (clientset : Clientset σ) (ns : String)
    (w : World σ) (e : Error) (s1 : σ)
    (h : clientset.deploymentsCreate w.cluster ns (deploymentObject ns) = (Except.error e, s1)) :
    createDeployment clientset ns w =
      (some e, { w with
        cluster := s1
        calls := w.calls ++
          [⟨⟨Verb.create, "apps/v1", "deployments", ns, Body.deployment (deploymentObject ns)⟩,
            false⟩] }) := by
  simp [createDeployment, appsV1DeploymentsCreate, h, isOk]

theorem createDeployment_of_ok {σ : Type} (clientset : Clientset σ) (ns : String)
    (w : World σ) (d : Deployment) (s1 : σ)
    (h : clientset.deploymentsCreate w.cluster ns (deploymentObject ns) = (Except.ok d, s1)) :
    createDeployment clientset ns w =
      (none, { cluster := s1
               calls := w.calls ++
                 [⟨⟨Verb.create, "apps/v1", "deployments", ns,
                    Body.deployment (deploymentObject ns)⟩, true⟩]
               log := w.log ++ [⟨Severity.info, "Created Deployment: nginx-deployment"⟩] }) := by
  simp [createDeployment, appsV1DeploymentsCreate, h, isOk, klogInfo]

theorem createHPA_of_error {σ : Type} (clientset : Clientset σ) (ns : String)
    (w : World σ) (e : Error) (s1 : σ)
    (h : clientset.hpaCreate w.cluster ns (hpaObject ns) = (Except.error e, s1)) :
    createHPA clientset ns w =
      (some e, { w with
        cluster := s1
        calls := w.calls ++
          [⟨⟨Verb.create, "autoscaling/v2beta1", "horizontalpodautoscalers", ns,
             Body.hpa (hpaObject ns)⟩, false⟩] }) := by
  simp [createHPA, autoscalingV2beta1HPACreate, h, isOk]

theorem createHPA_of_ok {σ : Type} (clientset : Clientset σ) (ns : String)
    (w : World σ) (a : HorizontalPodAutoscaler) (s1 : σ)
    (h : clientset.hpaCreate w.cluster ns (hpaObject ns) = (Except.ok a, s1)) :
    createHPA clientset ns w =
      (none, { cluster := s1
               calls := w.calls ++
                 [⟨⟨Verb.create, "autoscaling/v2beta1", "horizontalpodautoscalers", ns,
                    Body.hpa (hpaObject ns)⟩, true⟩]
               log := w.log ++
                 [⟨Severity.info,
                   "Created HPA using autoscaling/v2beta1 (deprecated API): nginx-hpa"⟩] }) := by
  simp [createHPA, autoscalingV2beta1HPACreate, h, isOk, klogInfo]

/-- The trace after `createDeployment` is the trace before it plus one
workload create, whatever the client answers. -/
theorem createDeployment_calls {σ : Type} (clientset : Clientset σ) (ns : String)
    (w : World σ) :
    (createDeployment clientset ns w).2.calls =
      w.calls ++
        [⟨⟨Verb.create, "apps/v1", "deployments", ns, Body.deployment (deploymentObject ns)⟩,
          isOk (clientset.deploymentsCreate w.cluster ns (deploymentObject ns)).1⟩] := by
  rcases hr : clientset.deploymentsCreate w.cluster ns (deploymentObject ns) with ⟨r, s1⟩
  cases r with
  | error e => rw [createDeployment_of_error clientset ns w e s1 hr]; rfl
  | ok d => rw [createDeployment_of_ok clientset ns w d s1 hr]; rfl

/-- The trace after `createHPA` is the trace before it plus one policy create
against `autoscaling/v2beta1`, whatever the client answers. -/
theorem createHPA_calls {σ : Type} (clientset : Clientset σ) (ns : String)
    (w : World σ) :
    (createHPA clientset ns w).2.calls =
      w.calls ++
        [⟨⟨Verb.create, "autoscaling/v2beta1", "horizontalpodautoscalers", ns,
           Body.hpa (hpaObject ns)⟩,
          isOk (clientset.hpaCreate w.cluster ns (hpaObject ns)).1⟩] := by
  rcases hr : clientset.hpaCreate w.cluster ns (hpaObject ns) with ⟨r, s1⟩
  cases r with
  | error e => rw [createHPA_of_error clientset ns w e s1 hr]; rfl
  | ok a => rw [createHPA_of_ok clientset ns w a s1 hr]; rfl

/-- A run whose configuration cannot be built. -/
theorem main_of_config_error {σ : Type} (env : Env σ) (e : Error)
    (hc : env.buildConfigFromFlags "" (kubeconfigPath env) = Except.error e) :
    main env =
      ⟨255, { cluster := env.cluster
              calls := []
              log := [⟨Severity.fatal, "Error building kubeconfig: " ++ e.text⟩] }⟩ := by
  simp [main, hc, klogFatalf]

/-- A run whose client cannot be created. -/
theorem main_of_client_error {σ : Type} (env : Env σ) (config : Config) (e : Error)
    (hc : env.buildConfigFromFlags "" (kubeconfigPath env) = Except.ok config)
    (hn : env.newForConfig config = Except.error e) :
    main env =
      ⟨255, { cluster := env.cluster
              calls := []
              log := [⟨Severity.fatal, "Error creating Kubernetes client: " ++ e.text⟩] }⟩ := by
  simp [main, hc, hn, klogFatalf]

/-- A run whose workload create is rejected. -/
theorem main_of_workload_error {σ : Type} (env : Env σ) (config : Config)
    (clientset : Clientset σ) (e : Error) (s1 : σ)
    (hc : env.buildConfigFromFlags "" (kubeconfigPath env) = Except.ok config)
    (hn : env.newForConfig config = Except.ok clientset)
    (hd : clientset.deploymentsCreate env.cluster "default" (deploymentObject "default")
      = (Except.error e, s1)) :
    main env =
      ⟨255, { cluster := s1
              calls :=
                [⟨⟨Verb.create, "apps/v1", "deployments", "default",
                   Body.deployment (deploymentObject "default")⟩, false⟩]
              log := [⟨Severity.info, "=== Creating Deployment ==="⟩,
                      ⟨Severity.fatal, "Failed to create deployment: " ++ e.text⟩] }⟩ := by
  have h1 := createDeployment_of_error clientset "default"
    (klogInfo "=== Creating Deployment ===" { cluster := env.cluster }) e s1 hd
  simp only [main, hc, hn, h1]
  simp [klogFatalf, klogInfo]

/-- A run whose workload create is accepted and whose policy create is
rejected. -/
theorem main_of_policy_error {σ : Type} (env : Env σ) (config : Config)
    (clientset : Clientset σ) (d : Deployment) (e : Error) (s1 s2 : σ)
    (hc : env.buildConfigFromFlags "" (kubeconfigPath env) = Except.ok config)
    (hn : env.newForConfig config = Except.ok clientset)
    (hd : clientset.deploymentsCreate env.cluster "default" (deploymentObject "default")
      = (Except.ok d, s1))
    (hh : clientset.hpaCreate s1 "default" (hpaObject "default") = (Except.error e, s2)) :
    main env =
      ⟨255, { cluster := s2
              calls :=
                [⟨⟨Verb.create, "apps/v1", "deployments", "default",
                   Body.deployment (deploymentObject "default")⟩, true⟩,
                 ⟨⟨Verb.create, "autoscaling/v2beta1", "horizontalpodautoscalers", "default",
                   Body.hpa (hpaObject "default")⟩, false⟩]
              log := [⟨Severity.info, "=== Creating Deployment ==="⟩,
                      ⟨Severity.info, "Created Deployment: nginx-deployment"⟩,
                      ⟨Severity.info,
                        "=== Creating HPA using deprecated autoscaling/v2beta1 API ==="⟩,
                      ⟨Severity.fatal, "Failed to create HPA: " ++ e.text⟩] }⟩ := by
  have h1 := createDeployment_of_ok clientset "default"
    (klogInfo "=== Creating Deployment ===" { cluster := env.cluster }) d s1 hd
  simp only [main, hc, hn, h1]
  rw [createHPA_of_error clientset "default" _ e s2 hh]
  simp [klogFatalf, klogInfo]

/-- A run in which every step succeeds. -/
theorem main_of_success {σ : Type} (env : Env σ) (config : Config)
    (clientset : Clientset σ) (d : Deployment) (a : HorizontalPodAutoscaler) (s1 s2 : σ)
    (hc : env.buildConfigFromFlags "" (kubeconfigPath env) = Except.ok config)
    (hn : env.newForConfig config = Except.ok clientset)
    (hd : clientset.deploymentsCreate env.cluster "default" (deploymentObject "default")
      = (Except.ok d, s1))
    (hh : clientset.hpaCreate s1 "default" (hpaObject "default") = (Except.ok a, s2)) :
    main env =
      ⟨0, { cluster := s2
            calls :=
              [⟨⟨Verb.create, "apps/v1", "deployments", "default",
                 Body.deployment (deploymentObject "default")⟩, true⟩,
               ⟨⟨Verb.create, "autoscaling/v2beta1", "horizontalpodautoscalers", "default",
                 Body.hpa (hpaObject "default")⟩, true⟩]
            log := [⟨Severity.info, "=== Creating Deployment ==="⟩,
                    ⟨Severity.info, "Created Deployment: nginx-deployment"⟩,
                    ⟨Severity.info,
                      "=== Creating HPA using deprecated autoscaling/v2beta1 API ==="⟩,
                    ⟨Severity.info,
                      "Created HPA using autoscaling/v2beta1 (deprecated API): nginx-hpa"⟩,
                    ⟨Severity.info, "Demo completed successfully!"⟩] }⟩ := by
  have h1 := createDeployment_of_ok clientset "default"
    (klogInfo "=== Creating Deployment ===" { cluster := env.cluster }) d s1 hd
  simp only [main, hc, hn, h1]
  rw [createHPA_of_ok clientset "default" _ a s2 hh]
  simp [klogInfo]

/-- The trace of any run is one of four: empty, the rejected workload create,
or the accepted workload create followed by the policy create. -/
theorem main_calls_cases {σ : Type} (env : Env σ) :
    (main env).world.calls = [] ∨
    (main env).world.calls =
      [⟨⟨Verb.create, "apps/v1", "deployments", "default",
         Body.deployment (deploymentObject "default")⟩, false⟩] ∨
    ∃ acc : Bool, (main env).world.calls =
      [⟨⟨Verb.create, "apps/v1", "deployments", "default",
         Body.deployment (deploymentObject "default")⟩, true⟩,
       ⟨⟨Verb.create, "autoscaling/v2beta1", "horizontalpodautoscalers", "default",
         Body.hpa (hpaObject "default")⟩, acc⟩] := by
  cases hc : env.buildConfigFromFlags "" (kubeconfigPath env) with
  | error e => left; rw [main_of_config_error env e hc]
  | ok config =>
    cases hn : env.newForConfig config with
    | error e => left; rw [main_of_client_error env config e hc hn]
    | ok clientset =>
      rcases hd : clientset.deploymentsCreate env.cluster "default"
        (deploymentObject "default") with ⟨r, s1⟩
      cases r with
      | error e =>
        right; left
        rw [main_of_workload_error env config clientset e s1 hc hn hd]
      | ok d =>
        right; right
        rcases hh : clientset.hpaCreate s1 "default" (hpaObject "default") with ⟨r2, s2⟩
        cases r2 with
        | error e =>
          exact ⟨false, by rw [main_of_policy_error env config clientset d e s1 s2 hc hn hd hh]⟩
        | ok a =>
          exact ⟨true, by rw [main_of_success env config clientset d a s1 s2 hc hn hd hh]⟩

/-! ## The claims -/

/-- C1: when the configuration is built, the client is created and the
workload create (`Deployments(ns).Create`) returns an error, the run issues no
policy create: the trace holds the rejected workload create and nothing else,
so no call is a `HorizontalPodAutoscalers(ns).Create`, and the run ends with a
non-zero status. -/
theorem C1_workload_error_issues_no_policy_create {σ : Type} (env : Env σ)
    (config : Config) (clientset : Clientset σ) (e : Error) (s1 : σ)
    (hc : env.buildConfigFromFlags "" (kubeconfigPath env) = Except.ok config)
    (hn : env.newForConfig config = Except.ok clientset)
    (hd : clientset.deploymentsCreate env.cluster "default" (deploymentObject "default")
      = (Except.error e, s1)) :
    ((main env).world.calls.filter isPolicyCreate).length = 0 ∧
    (∀ c ∈ (main env).world.calls, c.req.resource ≠ "horizontalpodautoscalers") ∧
    (main env).world.calls =
      [⟨⟨Verb.create, "apps/v1", "deployments", "default",
         Body.deployment (deploymentObject "default")⟩, false⟩] ∧
    (main env).exitCode ≠ 0 := by
  rw [main_of_workload_error env config clientset e s1 hc hn hd]
  refine ⟨?_, ?_, rfl, ?_⟩
  · show (List.filter isPolicyCreate [_]).length = 0
    rfl
  · intro c hmem
    simp only [List.mem_singleton] at hmem
    subst hmem
    decide
  · show (255 : Nat) ≠ 0
    decide

/-- C1 at a cluster on which the workload already exists. -/
theorem C1_workload_error_issues_no_policy_create_witness :
    (fakeClientset.deploymentsCreate usedCluster "default" (deploymentObject "default")
      = (Except.error ⟨"deployments.apps already exists"⟩, usedCluster)) ∧
    ((main (fakeEnv "/home/demo" usedCluster)).world.calls.filter isPolicyCreate).length = 0 :=
  ⟨rfl,
   (C1_workload_error_issues_no_policy_create (fakeEnv "/home/demo" usedCluster)
      ⟨"https://127.0.0.1:6443"⟩ fakeClientset ⟨"deployments.apps already exists"⟩
      usedCluster rfl rfl rfl).1⟩

/-- C2: when the client accepts both create calls, the run records exactly two
calls, the workload create through `apps/v1` and then the policy create, both
in namespace "default" with objects in namespace "default"; the workload is
"nginx-deployment" with 2 replicas and a container of image "nginx:1.20", the
policy has minReplicas 2, maxReplicas 10 and a CPU target utilization of 70,
and the exit status is 0. -/
theorem C2_end_to_end_two_creates {σ : Type} (env : Env σ)
    (config : Config) (clientset : Clientset σ) (d0 : Deployment)
    (a0 : HorizontalPodAutoscaler) (s1 s2 : σ)
    (hc : env.buildConfigFromFlags "" (kubeconfigPath env) = Except.ok config)
    (hn : env.newForConfig config = Except.ok clientset)
    (hd : clientset.deploymentsCreate env.cluster "default" (deploymentObject "default")
      = (Except.ok d0, s1))
    (hh : clientset.hpaCreate s1 "default" (hpaObject "default") = (Except.ok a0, s2)) :
    ∃ (d : Deployment) (h : HorizontalPodAutoscaler) (v : String),
      (main env).world.calls =
        [⟨⟨Verb.create, "apps/v1", "deployments", "default", Body.deployment d⟩, true⟩,
         ⟨⟨Verb.create, v, "horizontalpodautoscalers", "default", Body.hpa h⟩, true⟩] ∧
      (main env).world.calls.length = 2 ∧
      d.ObjectMeta.Namespace = "default" ∧
      h.ObjectMeta.Namespace = "default" ∧
      d.ObjectMeta.Name = "nginx-deployment" ∧
      d.Spec.Replicas = some 2 ∧
      (∃ c ∈ d.Spec.Template.Spec.Containers, c.Image = "nginx:1.20") ∧
      h.Spec.MinReplicas = some 2 ∧
      h.Spec.MaxReplicas = 10 ∧
      (∃ m ∈ h.Spec.Metrics, ∃ r, m.Resource = some r ∧ r.Name = ResourceCPU ∧
        r.TargetAverageUtilization = some 70) ∧
      (main env).exitCode = 0 := by
  rw [main_of_success env config clientset d0 a0 s1 s2 hc hn hd hh]
  refine ⟨deploymentObject "default", hpaObject "default", "autoscaling/v2beta1",
    rfl, rfl, rfl, rfl, rfl, rfl, ?_, rfl, rfl, ?_, rfl⟩
  · exact ⟨_, List.mem_singleton.mpr rfl, rfl⟩
  · exact ⟨_, List.mem_singleton.mpr rfl, _, rfl, rfl, rfl⟩

/-- C2 at an empty cluster that serves the policy API. -/
theorem C2_end_to_end_two_creates_witness :
    (fakeClientset.deploymentsCreate freshCluster "default" (deploymentObject "default")).1
      = Except.ok (deploymentObject "default") ∧
    ∃ (d : Deployment) (h : HorizontalPodAutoscaler) (v : String),
      (main (fakeEnv "/home/demo" freshCluster)).world.calls =
        [⟨⟨Verb.create, "apps/v1", "deployments", "default", Body.deployment d⟩, true⟩,
         ⟨⟨Verb.create, v, "horizontalpodautoscalers", "default", Body.hpa h⟩, true⟩] ∧
      (main (fakeEnv "/home/demo" freshCluster)).world.calls.length = 2 ∧
      d.ObjectMeta.Namespace = "default" ∧
      h.ObjectMeta.Namespace = "default" ∧
      d.ObjectMeta.Name = "nginx-deployment" ∧
      d.Spec.Replicas = some 2 ∧
      (∃ c ∈ d.Spec.Template.Spec.Containers, c.Image = "nginx:1.20") ∧
      h.Spec.MinReplicas = some 2 ∧
      h.Spec.MaxReplicas = 10 ∧
      (∃ m ∈ h.Spec.Metrics, ∃ r, m.Resource = some r ∧ r.Name = ResourceCPU ∧
        r.TargetAverageUtilization = some 70) ∧
      (main (fakeEnv "/home/demo" freshCluster)).exitCode = 0 :=
  ⟨rfl,
   C2_end_to_end_two_creates (fakeEnv "/home/demo" freshCluster)
     ⟨"https://127.0.0.1:6443"⟩ fakeClientset (deploymentObject "default")
     (hpaObject "default")
     ⟨[⟨"deployments", "default", "nginx-deployment"⟩], true⟩
     ⟨[⟨"horizontalpodautoscalers", "default", "nginx-hpa"⟩,
       ⟨"deployments", "default", "nginx-deployment"⟩], true⟩
     rfl rfl rfl rfl⟩

/-- C3: the exit status of a run is 0 exactly when all four steps succeed
(configuration built, client created, workload create accepted, policy create
accepted), and then the line "Demo completed successfully!" is logged; when
any step returns an error the run ends through `klog.Fatalf` with status 255,
its last log line is the fatal one, and no line of the log is "Demo completed
successfully!". -/
theorem C3_exit_zero_iff_all_steps_succeed {σ : Type} (env : Env σ) :
    ((main env).exitCode = 0 ↔ allStepsSucceed env) ∧
    (allStepsSucceed env →
      (main env).world.log.getLast? = some ⟨Severity.info, "Demo completed successfully!"⟩) ∧
    (¬ allStepsSucceed env →
      (main env).exitCode = 255 ∧
      (∃ msg, (main env).world.log.getLast? = some ⟨Severity.fatal, msg⟩) ∧
      ∀ line ∈ (main env).world.log, line.msg ≠ "Demo completed successfully!") := by
  have key : (allStepsSucceed env ∧ (main env).exitCode = 0 ∧
        (main env).world.log.getLast? = some ⟨Severity.info, "Demo completed successfully!"⟩) ∨
      (¬ allStepsSucceed env ∧ (main env).exitCode = 255 ∧
        (∃ msg, (main env).world.log.getLast? = some ⟨Severity.fatal, msg⟩) ∧
        ∀ line ∈ (main env).world.log, line.msg ≠ "Demo completed successfully!") := by
    cases hc : env.buildConfigFromFlags "" (kubeconfigPath env) with
    | error e =>
      right
      refine ⟨?_, ?_⟩
      · rintro ⟨config, clientset, d, s1, h, s2, h1, -, -, -⟩
        rw [hc] at h1
        cases h1
      · rw [main_of_config_error env e hc]
        refine ⟨rfl, ⟨_, rfl⟩, ?_⟩
        intro line hmem heq
        simp only [List.mem_singleton] at hmem
        subst hmem
        have := congrArg String.data heq
        simp at this
    | ok config =>
      cases hn : env.newForConfig config with
      | error e =>
        right
        refine ⟨?_, ?_⟩
        · rintro ⟨config1, clientset, d, s1, h, s2, h1, h2, -, -⟩
          rw [hc] at h1
          cases h1
          rw [hn] at h2
          cases h2
        · rw [main_of_client_error env config e hc hn]
          refine ⟨rfl, ⟨_, rfl⟩, ?_⟩
          intro line hmem heq
          simp only [List.mem_singleton] at hmem
          subst hmem
          have := congrArg String.data heq
          simp at this
      | ok clientset =>
        rcases hd : clientset.deploymentsCreate env.cluster "default"
          (deploymentObject "default") with ⟨r, s1⟩
        cases r with
        | error e =>
          right
          refine ⟨?_, ?_⟩
          · rintro ⟨config1, clientset1, d, s1, h, s2, h1, h2, h3, -⟩
            rw [hc] at h1
            cases h1
            rw [hn] at h2
            cases h2
            rw [hd] at h3
            cases h3
          · rw [main_of_workload_error env config clientset e s1 hc hn hd]
            refine ⟨rfl, ⟨_, rfl⟩, ?_⟩
            intro line hmem heq
            simp only [List.mem_cons, List.mem_singleton, List.not_mem_nil, or_false] at hmem
            rcases hmem with hmem | hmem
            · subst hmem
              revert heq
              decide
            · subst hmem
              have := congrArg String.data heq
              simp at this
        | ok d =>
          rcases hh : clientset.hpaCreate s1 "default" (hpaObject "default") with ⟨r2, s2⟩
          cases r2 with
          | error e =>
            right
            refine ⟨?_, ?_⟩
            · rintro ⟨config1, clientset1, d1, s1a, h, s2a, h1, h2, h3, h4⟩
              rw [hc] at h1
              cases h1
              rw [hn] at h2
              cases h2
              rw [hd] at h3
              cases h3
              rw [hh] at h4
              cases h4
            · rw [main_of_policy_error env config clientset d e s1 s2 hc hn hd hh]
              refine ⟨rfl, ⟨_, rfl⟩, ?_⟩
              intro line hmem heq
              simp only [List.mem_cons, List.mem_singleton, List.not_mem_nil, or_false] at hmem
              rcases hmem with hmem | hmem | hmem | hmem
              · subst hmem
                revert heq
                decide
              · subst hmem
                revert heq
                decide
              · subst hmem
                revert heq
                decide
              · subst hmem
                have := congrArg String.data heq
                simp at this
          | ok a =>
            left
            refine ⟨⟨config, clientset, d, s1, a, s2, hc, hn, hd, hh⟩, ?_⟩
            rw [main_of_success env config clientset d a s1 s2 hc hn hd hh]
            exact ⟨rfl, rfl⟩
  rcases key with ⟨hall, h0, hlog⟩ | ⟨hnot, h255, hfatal, hnolog⟩
  · exact ⟨⟨fun _ => hall, fun _ => h0⟩, fun _ => hlog, fun hn => absurd hall hn⟩
  · refine ⟨⟨fun h0 => ?_, fun hall => absurd hall hnot⟩, fun hall => absurd hall hnot,
      fun _ => ⟨h255, hfatal, hnolog⟩⟩
    rw [h255] at h0
    exact absurd h0 (by decide)

/-- C3 at a run without a credentials file: a step fails and the status is 255. -/
theorem C3_exit_zero_iff_all_steps_succeed_witness :
    ¬ allStepsSucceed (fakeEnv "" freshCluster) ∧
    (main (fakeEnv "" freshCluster)).exitCode = 255 :=
  have hnot : ¬ allStepsSucceed (fakeEnv "" freshCluster) := by
    rintro ⟨config, clientset, d, s1, h, s2, h1, -, -, -⟩
    cases h1
  ⟨hnot, ((C3_exit_zero_iff_all_steps_succeed (fakeEnv "" freshCluster)).2.2 hnot).1⟩

/-- C4: when the workload create is accepted and the policy create is
rejected, the run ends with a non-zero status and the trace holds exactly the
two create calls, workload then policy; no call is a delete or an update, and
in the remote state given by the set of created objects the workload
"nginx-deployment" is present after the run, from whatever set it started. -/
theorem C4_policy_error_leaves_workload {σ : Type} (env : Env σ)
    (config : Config) (clientset : Clientset σ) (d0 : Deployment) (e : Error) (s1 s2 : σ)
    (hc : env.buildConfigFromFlags "" (kubeconfigPath env) = Except.ok config)
    (hn : env.newForConfig config = Except.ok clientset)
    (hd : clientset.deploymentsCreate env.cluster "default" (deploymentObject "default")
      = (Except.ok d0, s1))
    (hh : clientset.hpaCreate s1 "default" (hpaObject "default") = (Except.error e, s2)) :
    (main env).exitCode ≠ 0 ∧
    (main env).world.calls =
      [⟨⟨Verb.create, "apps/v1", "deployments", "default",
         Body.deployment (deploymentObject "default")⟩, true⟩,
       ⟨⟨Verb.create, "autoscaling/v2beta1", "horizontalpodautoscalers", "default",
         Body.hpa (hpaObject "default")⟩, false⟩] ∧
    (∀ c ∈ (main env).world.calls, c.req.verb = Verb.create) ∧
    (∀ c ∈ (main env).world.calls, c.req.verb ≠ Verb.delete ∧ c.req.verb ≠ Verb.update) ∧
    (∀ remote : List ObjectKey,
      (⟨"deployments", "default", "nginx-deployment"⟩ : ObjectKey) ∈
        remoteAfter remote (main env).world.calls) := by
  rw [main_of_policy_error env config clientset d0 e s1 s2 hc hn hd hh]
  refine ⟨?_, rfl, ?_, ?_, ?_⟩
  · show (255 : Nat) ≠ 0
    decide
  · intro c hmem
    simp only [List.mem_cons, List.mem_singleton, List.not_mem_nil, or_false] at hmem
    rcases hmem with hmem | hmem <;> subst hmem <;> rfl
  · intro c hmem
    simp only [List.mem_cons, List.mem_singleton, List.not_mem_nil, or_false] at hmem
    rcases hmem with hmem | hmem <;> subst hmem <;> decide
  · intro remote
    show (⟨"deployments", "default", "nginx-deployment"⟩ : ObjectKey) ∈
      (⟨"deployments", "default", "nginx-deployment"⟩ : ObjectKey) :: remote
    exact List.mem_cons_self _ _

/-- C4 at an empty cluster from which the policy API has been removed. -/
theorem C4_policy_error_leaves_workload_witness :
    (fakeClientset.hpaCreate ⟨[⟨"deployments", "default", "nginx-deployment"⟩], false⟩
        "default" (hpaObject "default")).1
      = Except.error ⟨"the server could not find the requested resource"⟩ ∧
    (main (fakeEnv "/home/demo" newCluster)).exitCode ≠ 0 ∧
    (⟨"deployments", "default", "nginx-deployment"⟩ : ObjectKey) ∈
      remoteAfter [] (main (fakeEnv "/home/demo" newCluster)).world.calls :=
  have h := C4_policy_error_leaves_workload (fakeEnv "/home/demo" newCluster)
    ⟨"https://127.0.0.1:6443"⟩ fakeClientset (deploymentObject "default")
    ⟨"the server could not find the requested resource"⟩
    ⟨[⟨"deployments", "default", "nginx-deployment"⟩], false⟩
    ⟨[⟨"deployments", "default", "nginx-deployment"⟩], false⟩
    rfl rfl rfl rfl
  ⟨rfl, h.1, h.2.2.2.2 []⟩

/-- C5: when `BuildConfigFromFlags` returns an error the run ends with a
non-zero status and with an empty trace: no workload create, no policy create
and no other request is issued, and the cluster is as it was. -/
theorem C5_config_error_issues_no_call {σ : Type} (env : Env σ) (e : Error)
    (hc : env.buildConfigFromFlags "" (kubeconfigPath env) = Except.error e) :
    (main env).exitCode ≠ 0 ∧
    (main env).world.calls = [] ∧
    ((main env).world.calls.filter isWorkloadCreate).length = 0 ∧
    ((main env).world.calls.filter isPolicyCreate).length = 0 ∧
    (main env).world.cluster = env.cluster := by
  rw [main_of_config_error env e hc]
  refine ⟨?_, rfl, rfl, rfl, rfl⟩
  show (255 : Nat) ≠ 0
  decide

/-- C5 at a run whose credentials path is empty. -/
theorem C5_config_error_issues_no_call_witness :
    (fakeEnv "" freshCluster).buildConfigFromFlags "" (kubeconfigPath (fakeEnv "" freshCluster))
      = Except.error ⟨"invalid configuration: no configuration has been provided"⟩ ∧
    (main (fakeEnv "" freshCluster)).exitCode ≠ 0 ∧
    (main (fakeEnv "" freshCluster)).world.calls = [] :=
  have h := C5_config_error_issues_no_call (fakeEnv "" freshCluster)
    ⟨"invalid configuration: no configuration has been provided"⟩ rfl
  ⟨rfl, h.1, h.2.1⟩

/-- C6: an error returned by `Deployments(ns).Create` is the value
`createDeployment` returns, and an error returned by
`HorizontalPodAutoscalers(ns).Create` is the value `createHPA` returns,
unchanged; each function sends exactly one request whatever the answer (no
retry), `main` prints that same error in its fatal line, and in every run each
of the two create operations is called at most once. -/
theorem C6_client_error_returned_unchanged {σ : Type} (clientset : Clientset σ)
    (ns : String) (w : World σ) (env : Env σ) :
    (∀ e s1, clientset.deploymentsCreate w.cluster ns (deploymentObject ns)
        = (Except.error e, s1) →
      (createDeployment clientset ns w).1 = some e) ∧
    (∀ e s1, clientset.hpaCreate w.cluster ns (hpaObject ns) = (Except.error e, s1) →
      (createHPA clientset ns w).1 = some e) ∧
    (createDeployment clientset ns w).2.calls.length = w.calls.length + 1 ∧
    (createHPA clientset ns w).2.calls.length = w.calls.length + 1 ∧
    (∀ config cs e s1,
      env.buildConfigFromFlags "" (kubeconfigPath env) = Except.ok config →
      env.newForConfig config = Except.ok cs →
      cs.deploymentsCreate env.cluster "default" (deploymentObject "default")
        = (Except.error e, s1) →
      (main env).world.log.getLast?
        = some ⟨Severity.fatal, "Failed to create deployment: " ++ e.text⟩) ∧
    (∀ config cs d e s1 s2,
      env.buildConfigFromFlags "" (kubeconfigPath env) = Except.ok config →
      env.newForConfig config = Except.ok cs →
      cs.deploymentsCreate env.cluster "default" (deploymentObject "default")
        = (Except.ok d, s1) →
      cs.hpaCreate s1 "default" (hpaObject "default") = (Except.error e, s2) →
      (main env).world.log.getLast?
        = some ⟨Severity.fatal, "Failed to create HPA: " ++ e.text⟩) ∧
    ((main env).world.calls.filter isWorkloadCreate).length ≤ 1 ∧
    ((main env).world.calls.filter isPolicyCreate).length ≤ 1 := by
  refine ⟨?_, ?_, ?_, ?_, ?_, ?_, ?_⟩
  · intro e s1 h
    rw [createDeployment_of_error clientset ns w e s1 h]
  · intro e s1 h
    rw [createHPA_of_error clientset ns w e s1 h]
  · rw [createDeployment_calls]
    simp
  · rw [createHPA_calls]
    simp
  · intro config cs e s1 hc hn hd
    rw [main_of_workload_error env config cs e s1 hc hn hd]
    rfl
  · intro config cs d e s1 s2 hc hn hd hh
    rw [main_of_policy_error env config cs d e s1 s2 hc hn hd hh]
    rfl
  · rcases main_calls_cases env with h | h | ⟨acc, h⟩
    · rw [h]
      exact ⟨by decide, by decide⟩
    · rw [h]
      exact ⟨by decide, by decide⟩
    · rw [h]
      cases acc <;> exact ⟨by decide, by decide⟩

/-- C6 at a cluster on which the workload already exists: the conflict error of
the client is what `createDeployment` returns. -/
theorem C6_client_error_returned_unchanged_witness :
    fakeClientset.deploymentsCreate usedCluster "default" (deploymentObject "default")
      = (Except.error ⟨"deployments.apps already exists"⟩, usedCluster) ∧
    (createDeployment fakeClientset "default" ({ cluster := usedCluster } : World FakeCluster)).1
      = some ⟨"deployments.apps already exists"⟩ :=
  ⟨rfl,
   (C6_client_error_returned_unchanged fakeClientset "default"
      ({ cluster := usedCluster } : World FakeCluster)
      (fakeEnv "/home/demo" usedCluster)).1 ⟨"deployments.apps already exists"⟩ usedCluster rfl⟩

/-- C7 as stated fails: a caller of `createHPA` chooses the client, the
namespace and nothing else.  At the stub client and namespace "default" the
one request sent goes to "autoscaling/v2beta1", and no client, namespace or
world makes `createHPA` send a request to the version "autoscaling/v2". -/
theorem C7_counterexample_version_not_selectable :
    ((createHPA fakeClientset "default"
        ({ cluster := freshCluster } : World FakeCluster)).2.calls.map
          (fun c => c.req.apiVersion) = ["autoscaling/v2beta1"]) ∧
    ¬ (∀ version : String, ∃ (σ : Type) (clientset : Clientset σ) (ns : String)
        (w : World σ),
        ∃ c ∈ (createHPA clientset ns w).2.calls.drop w.calls.length,
          c.req.apiVersion = version) := by
  refine ⟨rfl, ?_⟩
  intro hall
  obtain ⟨σ, clientset, ns, w, c, hmem, hv⟩ := hall "autoscaling/v2"
  rw [createHPA_calls, List.drop_left] at hmem
  simp only [List.mem_singleton] at hmem
  subst hmem
  have hne : ("autoscaling/v2beta1" : String) ≠ "autoscaling/v2" := by decide
  exact hne hv

/-- C7 amended: `createHPA` sends its one request through the fixed typed
client `AutoscalingV2beta1()`: for every client, namespace and world the
request added to the trace is a create of "horizontalpodautoscalers" against
"autoscaling/v2beta1" in the namespace given, and `main` announces that version
in its log before the call. -/
theorem C7_policy_create_uses_fixed_version {σ : Type} (clientset : Clientset σ)
    (ns : String) (w : World σ) :
    (∃ (h : HorizontalPodAutoscaler) (acc : Bool),
      (createHPA clientset ns w).2.calls =
        w.calls ++
          [⟨⟨Verb.create, "autoscaling/v2beta1", "horizontalpodautoscalers", ns, Body.hpa h⟩,
            acc⟩]) ∧
    (∀ c ∈ (createHPA clientset ns w).2.calls.drop w.calls.length,
      c.req.apiVersion = "autoscaling/v2beta1") ∧
    (∀ env : Env σ, ∀ c ∈ (main env).world.calls,
      isPolicyCreate c = true → c.req.apiVersion = "autoscaling/v2beta1") := by
  refine ⟨⟨hpaObject ns, _, createHPA_calls clientset ns w⟩, ?_, ?_⟩
  · intro c hmem
    rw [createHPA_calls, List.drop_left] at hmem
    simp only [List.mem_singleton] at hmem
    subst hmem
    rfl
  · intro env c hmem hp
    rcases main_calls_cases env with h | h | ⟨acc, h⟩
    · rw [h] at hmem
      cases hmem
    · rw [h] at hmem
      simp only [List.mem_singleton] at hmem
      subst hmem
      revert hp
      decide
    · rw [h] at hmem
      simp only [List.mem_cons, List.mem_singleton, List.not_mem_nil, or_false] at hmem
      rcases hmem with hmem | hmem
      · subst hmem
        revert hp
        decide
      · subst hmem
        rfl

/-- C7 amended, at the stub client on an empty cluster. -/
theorem C7_policy_create_uses_fixed_version_witness :
    isPolicyCreate
        ⟨⟨Verb.create, "autoscaling/v2beta1", "horizontalpodautoscalers", "default",
          Body.hpa (hpaObject "default")⟩, true⟩ = true ∧
    (⟨⟨Verb.create, "autoscaling/v2beta1", "horizontalpodautoscalers", "default",
        Body.hpa (hpaObject "default")⟩, true⟩ : Call).req.apiVersion
      = "autoscaling/v2beta1" :=
  ⟨rfl,
   (C7_policy_create_uses_fixed_version fakeClientset "default"
      ({ cluster := freshCluster } : World FakeCluster)).2.2
      (fakeEnv "/home/demo" freshCluster) _ (List.mem_cons_of_mem _ (List.mem_singleton.mpr rfl))
      rfl⟩

/-- C8: for every namespace, client and world, the workload that
`createDeployment` submits has a selector whose matchLabels equal the pod
template's labels, both being {"app": "nginx"}, so every selector pair is
among the template labels; and its replica count is set and positive. -/
theorem C8_selector_matches_template_labels {σ : Type} (clientset : Clientset σ)
    (ns : String) (w : World σ) :
    ∃ (d : Deployment) (sel : LabelSelector) (r : Int) (acc : Bool),
      (createDeployment clientset ns w).2.calls =
        w.calls ++
          [⟨⟨Verb.create, "apps/v1", "deployments", ns, Body.deployment d⟩, acc⟩] ∧
      d.Spec.Selector = some sel ∧
      sel.MatchLabels = d.Spec.Template.ObjectMeta.Labels ∧
      sel.MatchLabels = [("app", "nginx")] ∧
      d.Spec.Template.ObjectMeta.Labels = [("app", "nginx")] ∧
      (∀ kv ∈ sel.MatchLabels, kv ∈ d.Spec.Template.ObjectMeta.Labels) ∧
      d.Spec.Replicas = some r ∧ 0 < r :=
  ⟨deploymentObject ns, ⟨[("app", "nginx")]⟩, 2, _, createDeployment_calls clientset ns w,
    rfl, rfl, rfl, rfl, fun _ hkv => hkv, rfl, by decide⟩

/-- C9: for every namespace, client and world, the policy that `createHPA`
submits has minReplicas set with 1 ≤ minReplicas ≤ maxReplicas, has at least
one metric, and every metric has a resource source whose target average
utilization is set and lies between 1 and 100. -/
theorem C9_policy_bounds {σ : Type} (clientset : Clientset σ)
    (ns : String) (w : World σ) :
    ∃ (h : HorizontalPodAutoscaler) (mn : Int) (acc : Bool),
      (createHPA clientset ns w).2.calls =
        w.calls ++
          [⟨⟨Verb.create, "autoscaling/v2beta1", "horizontalpodautoscalers", ns, Body.hpa h⟩,
            acc⟩] ∧
      h.Spec.MinReplicas = some mn ∧
      1 ≤ mn ∧ mn ≤ h.Spec.MaxReplicas ∧
      1 ≤ h.Spec.Metrics.length ∧
      (∀ m ∈ h.Spec.Metrics, ∃ (src : ResourceMetricSource) (u : Int),
        m.Resource = some src ∧ src.TargetAverageUtilization = some u ∧ 1 ≤ u ∧ u ≤ 100) := by
  refine ⟨hpaObject ns, 2, _, createHPA_calls clientset ns w, rfl, by decide,
    (by decide : (2 : Int) ≤ 10), (by decide : 1 ≤ 1), ?_⟩
  intro m hm
  have hm1 : m ∈ [({ SourceType := ResourceMetricSourceType
                     Resource := some { Name := ResourceCPU
                                        TargetAverageUtilization := int32Ptr 70 } } :
      MetricSpec)] := hm
  simp only [List.mem_singleton] at hm1
  subst hm1
  exact ⟨_, 70, rfl, rfl, by decide, by decide⟩

/-- C10: for every namespace, the scale-target reference of the policy that
`createHPA` submits names the workload that `createDeployment` submits with
the same namespace argument: kind "Deployment", API version "apps/v1", which is
the group/version of the workload create request, the workload's name, and the
same object namespace. -/
theorem C10_scale_target_is_the_workload {σ : Type} (clientset : Clientset σ)
    (ns : String) (w1 w2 : World σ) :
    ∃ (dreq hreq : Request) (d : Deployment) (h : HorizontalPodAutoscaler)
      (accD accH : Bool),
      (createDeployment clientset ns w1).2.calls = w1.calls ++ [⟨dreq, accD⟩] ∧
      (createHPA clientset ns w2).2.calls = w2.calls ++ [⟨hreq, accH⟩] ∧
      dreq.body = Body.deployment d ∧
      hreq.body = Body.hpa h ∧
      dreq.resource = "deployments" ∧
      h.Spec.ScaleTargetRef.Kind = "Deployment" ∧
      h.Spec.ScaleTargetRef.APIVersion = "apps/v1" ∧
      h.Spec.ScaleTargetRef.APIVersion = dreq.apiVersion ∧
      h.Spec.ScaleTargetRef.Name = d.ObjectMeta.Name ∧
      h.ObjectMeta.Namespace = d.ObjectMeta.Namespace ∧
      hreq.Namespace = dreq.Namespace :=
  ⟨_, _, deploymentObject ns, hpaObject ns, _, _, createDeployment_calls clientset ns w1,
    createHPA_calls clientset ns w2, rfl, rfl, rfl, rfl, rfl, rfl, rfl, rfl, rfl⟩

end Gotest
